import Mathlib

/-!
Shallow embedding of the egg-gender batch-analysis application
(components `ShapeIndexCalculator`, `ImageAnalyzer`, `AnalysisChart`,
`App.handleNewRecord`/`downloadCSV` and `services/geminiService`).

Numbers are modelled as rationals (`ℚ`); JavaScript `parseFloat` failure
(`NaN`) is modelled as `Option.none`.  Promise settlement is modelled by
the `SettledResult` sum type; the external prediction client and the
`FileReader` are oracles passed in as function parameters, so a batch run
is a pure function of its inputs and of the oracles' answers.
-/

namespace EggGender

/-- The `predictedGender` union type `'Male' | 'Female' | 'Uncertain'`. -/
inductive Gender where
  | Male
  | Female
  | Uncertain
deriving DecidableEq

/-- The string stored in `AnalysisRecord.gender` (a plain `string` in TS). -/
def Gender.label : Gender → String
  | Gender.Male => "Male"
  | Gender.Female => "Female"
  | Gender.Uncertain => "Uncertain"

/-- The `confidence` union type `'High' | 'Medium' | 'Low'`. -/
inductive Confidence where
  | High
  | Medium
  | Low
deriving DecidableEq

/-- The string stored in `AnalysisRecord.confidence`. -/
def Confidence.label : Confidence → String
  | Confidence.High => "High"
  | Confidence.Medium => "Medium"
  | Confidence.Low => "Low"

/-- Structure `GenderPredictionResult` from `types.ts`. -/
structure GenderPredictionResult where
  predictedGender : Gender
  confidence : Confidence
  reasoning : String
deriving DecidableEq

/-- Structure `AnalysisRecord` from `types.ts` (`gender` and `confidence` are plain
strings there, which is what `AnalysisChart` compares against). -/
structure AnalysisRecord where
  timestamp : String
  batchNumber : String
  analysisType : String
  gender : String
  confidence : String
  reasoning : String
deriving DecidableEq

/-- JS `String.prototype.trim`: strip whitespace from both ends
(implemented over the character list so that it evaluates in the kernel). -/
def jsTrim (s : String) : String :=
  ⟨((s.data.dropWhile Char.isWhitespace).reverse.dropWhile Char.isWhitespace).reverse⟩

/-- One text field of a measurement row: `isEmpty` models JS falsiness of
the raw string (`!row.length`), `parsed` models `parseFloat` (`none` when
the result is `NaN`). -/
structure FieldInput where
  isEmpty : Bool
  parsed : Option ℚ
deriving DecidableEq

/-- The numeric value used once validation guaranteed `parsed = some _`;
the default is never reached on a dispatched row. -/
def FieldInput.value (f : FieldInput) : ℚ := f.parsed.getD 0

/-- Structure `MeasurementRow` from `ShapeIndexCalculator`. -/
structure MeasurementRow where
  id : String
  length : FieldInput
  width : FieldInput
  weight : FieldInput
deriving DecidableEq

/-- The parsed numeric triple stored in `CalculationResult.inputs`. -/
structure MeasurementValues where
  length : ℚ
  width : ℚ
  weight : ℚ
deriving DecidableEq

/-- The line `const shapeIndex = (widthNum / lengthNum) * 100` in `handleCalculate`
(the same formula appears in `predictEggGenderFromMeasurements`). -/
def shapeIndexOf (lengthNum widthNum : ℚ) : ℚ := widthNum / lengthNum * 100

/-- Structure `CalculationResult` from `ShapeIndexCalculator`: the prediction result
extended with the row id, the parsed inputs and the derived shape index. -/
structure CalculationResult where
  predictedGender : Gender
  confidence : Confidence
  reasoning : String
  id : String
  inputs : MeasurementValues
  shapeIndex : ℚ
deriving DecidableEq

/-- Outcome of an awaited promise, as observed by `Promise.allSettled`. -/
inductive SettledResult (α : Type) where
  | fulfilled (value : α)
  | rejected
deriving DecidableEq

/-- Returns `some` on fulfilment, `none` on rejection. -/
def SettledResult.toOption {α : Type} : SettledResult α → Option α
  | SettledResult.fulfilled v => some v
  | SettledResult.rejected => none

/-- Whether the promise fulfilled. -/
def SettledResult.isFulfilled {α : Type} : SettledResult α → Bool
  | SettledResult.fulfilled _ => true
  | SettledResult.rejected => false

/-- Per-row check of `validateRows`: all three fields present, all three
parse to positive numbers, and width strictly below length. -/
def validRow (row : MeasurementRow) : Bool :=
  if row.length.isEmpty || row.width.isEmpty || row.weight.isEmpty then
    false
  else
    match row.length.parsed, row.width.parsed, row.weight.parsed with
    | some lengthNum, some widthNum, some weightNum =>
        if lengthNum ≤ 0 || widthNum ≤ 0 || weightNum ≤ 0 then false
        else if widthNum ≥ lengthNum then false
        else true
    | _, _, _ => false

/-- Function `validateRows`: the submission is valid iff the trimmed batch number is
non-empty and every row passes `validRow`. -/
def validateRows (batchNumber : String) (rows : List MeasurementRow) : Bool :=
  (!(jsTrim batchNumber == "")) && rows.all validRow

/-- Model of JS `Number.prototype.toFixed(2)`: sign, then the absolute value rounded
half-up to two decimal digits. -/
def toFixed2 (q : ℚ) : String :=
  let sign := if q < 0 then "-" else ""
  let n : ℕ := (⌊|q| * 100 + 1 / 2⌋).toNat
  sign ++ toString (n / 100) ++ "." ++ (if n % 100 < 10 then "0" else "") ++ toString (n % 100)

/-- The `AnalysisRecord` built inside `handleCalculate` for a non-Uncertain
fulfilled result (`analysisType: 'Calculator'`, reasoning prefixed with the
shape index formatted to two decimals). -/
def mkCalcRecord (now batchNumber : String) (result : CalculationResult) : AnalysisRecord :=
  { timestamp := now
    batchNumber := batchNumber
    analysisType := "Calculator"
    gender := result.predictedGender.label
    confidence := result.confidence.label
    reasoning := "Shape Index: " ++ toFixed2 result.shapeIndex ++ ". " ++ result.reasoning }

/-- The per-row promise of `handleCalculate`: parse the three fields,
derive the shape index, await the prediction client, and extend its result
with id/inputs/shapeIndex; the promise rejects iff the client call does. -/
def calcPromise (client : ℚ → ℚ → ℚ → SettledResult GenderPredictionResult)
    (row : MeasurementRow) : SettledResult CalculationResult :=
  let lengthNum := row.length.value
  let widthNum := row.width.value
  let weightNum := row.weight.value
  let shapeIndex := shapeIndexOf lengthNum widthNum
  match client lengthNum widthNum weightNum with
  | SettledResult.fulfilled analysisResult =>
      SettledResult.fulfilled
        { predictedGender := analysisResult.predictedGender
          confidence := analysisResult.confidence
          reasoning := analysisResult.reasoning
          id := row.id
          inputs := { length := lengthNum, width := widthNum, weight := weightNum }
          shapeIndex := shapeIndex }
  | SettledResult.rejected => SettledResult.rejected

/-- The `settledResults.forEach` loop of `handleCalculate`: collect
fulfilled values into `successfulResults`, call `onAnalysisComplete` for
each fulfilled non-Uncertain result, and log each rejection.  Returns
(results, appended records, number of failure logs). -/
def collectCalc (now batchNumber : String) :
    List (SettledResult CalculationResult) →
      List CalculationResult × List AnalysisRecord × ℕ
  | [] => ([], [], 0)
  | SettledResult.fulfilled result :: rest =>
      let acc := collectCalc now batchNumber rest
      (result :: acc.1,
       (if result.predictedGender = Gender.Uncertain then [] else
          [mkCalcRecord now batchNumber result]) ++ acc.2.1,
       acc.2.2)
  | SettledResult.rejected :: rest =>
      let acc := collectCalc now batchNumber rest
      (acc.1, acc.2.1, acc.2.2 + 1)

/-- Observable outcome of one `handleCalculate` invocation: the displayed
results, the records handed to `onAnalysisComplete` (in order), the number
of per-item failure logs, and the number of prediction-client calls. -/
structure CalcRun where
  results : List CalculationResult
  appended : List AnalysisRecord
  failedLogs : ℕ
  callCount : ℕ
deriving DecidableEq

/-- Function `handleCalculate` of `ShapeIndexCalculator`: bail out with no client
call when `validateRows` fails; otherwise issue one client call per row,
wait for all to settle, and collect the outcomes. -/
def handleCalculate (client : ℚ → ℚ → ℚ → SettledResult GenderPredictionResult)
    (now batchNumber : String) (rows : List MeasurementRow) : CalcRun :=
  if validateRows batchNumber rows then
    let settled := rows.map (calcPromise client)
    let acc := collectCalc now batchNumber settled
    { results := acc.1, appended := acc.2.1, failedLogs := acc.2.2,
      callCount := rows.length }
  else
    { results := [], appended := [], failedLogs := 0, callCount := 0 }

/-- Structure `FilePreview` from `ImageAnalyzer` (the `File` contents are only seen
through the reader oracle). -/
structure FilePreview where
  id : String
  preview : String
deriving DecidableEq

/-- Structure `AnalysisResult` from `ImageAnalyzer`: the prediction result extended
with the file id and preview handle. -/
structure ImageResult where
  predictedGender : Gender
  confidence : Confidence
  reasoning : String
  id : String
  preview : String
deriving DecidableEq

/-- The `AnalysisRecord` built inside `handleAnalyze` for every fulfilled
result (`analysisType: 'Image'`, reasoning passed through unchanged). -/
def mkImageRecord (now batchNumber : String) (result : ImageResult) : AnalysisRecord :=
  { timestamp := now
    batchNumber := batchNumber
    analysisType := "Image"
    gender := result.predictedGender.label
    confidence := result.confidence.label
    reasoning := result.reasoning }

/-- The per-file promise of `handleAnalyze`: read the file (the
`FileReader` may reject, in which case `predictEggGender` is never
called), then await the prediction client. -/
def imagePromise (reader : FilePreview → SettledResult String)
    (client : String → SettledResult GenderPredictionResult)
    (filePreview : FilePreview) : SettledResult ImageResult :=
  match reader filePreview with
  | SettledResult.rejected => SettledResult.rejected
  | SettledResult.fulfilled imageData =>
      match client imageData with
      | SettledResult.fulfilled analysisResult =>
          SettledResult.fulfilled
            { predictedGender := analysisResult.predictedGender
              confidence := analysisResult.confidence
              reasoning := analysisResult.reasoning
              id := filePreview.id
              preview := filePreview.preview }
      | SettledResult.rejected => SettledResult.rejected

/-- The `settledResults.forEach` loop of `handleAnalyze`: every fulfilled
result is displayed and appended (no Uncertain exclusion); rejections are
logged. -/
def collectImage (now batchNumber : String) :
    List (SettledResult ImageResult) →
      List ImageResult × List AnalysisRecord × ℕ
  | [] => ([], [], 0)
  | SettledResult.fulfilled result :: rest =>
      let acc := collectImage now batchNumber rest
      (result :: acc.1, mkImageRecord now batchNumber result :: acc.2.1, acc.2.2)
  | SettledResult.rejected :: rest =>
      let acc := collectImage now batchNumber rest
      (acc.1, acc.2.1, acc.2.2 + 1)

/-- Observable outcome of one `handleAnalyze` invocation. -/
structure ImageRun where
  results : List ImageResult
  appended : List AnalysisRecord
  failedLogs : ℕ
  callCount : ℕ
deriving DecidableEq

/-- Function `handleAnalyze` of `ImageAnalyzer`: bail out with no client call when
there are no files or the trimmed batch number is empty; otherwise one
prediction call per successfully read file. -/
def handleAnalyze (reader : FilePreview → SettledResult String)
    (client : String → SettledResult GenderPredictionResult)
    (now batchNumber : String) (files : List FilePreview) : ImageRun :=
  if files.length == 0 || jsTrim batchNumber == "" then
    { results := [], appended := [], failedLogs := 0, callCount := 0 }
  else
    let settled := files.map (imagePromise reader client)
    let acc := collectImage now batchNumber settled
    { results := acc.1, appended := acc.2.1, failedLogs := acc.2.2,
      callCount := files.countP (fun f => (reader f).isFulfilled) }

/-- The batch filter of `AnalysisChart`: all records for `'all'`, otherwise
the records whose `batchNumber` matches the selection. -/
def filteredRecords (records : List AnalysisRecord) (selectedBatch : String) :
    List AnalysisRecord :=
  if selectedBatch == "all" then records
  else records.filter (fun r => r.batchNumber == selectedBatch)

/-- The reducer callback of `AnalysisChart`: bump the `Male` count on an
exact `'Male'` match, the `Female` count on an exact `'Female'` match, and
leave the accumulator unchanged otherwise. -/
def genderTally (acc : ℕ × ℕ) (record : AnalysisRecord) : ℕ × ℕ :=
  if record.gender == "Male" then (acc.1 + 1, acc.2)
  else if record.gender == "Female" then (acc.1, acc.2 + 1)
  else acc

/-- The `reduce` of `AnalysisChart`: count records whose `gender` is the
exact string `'Male'` (first component) or `'Female'` (second). -/
def genderCounts (records : List AnalysisRecord) : ℕ × ℕ :=
  records.foldl genderTally (0, 0)

/-- The sum `total = genderCounts.Male + genderCounts.Female` on the filtered list. -/
def chartTotal (records : List AnalysisRecord) (selectedBatch : String) : ℕ :=
  (genderCounts (filteredRecords records selectedBatch)).1 +
    (genderCounts (filteredRecords records selectedBatch)).2

/-- The expression `total > 0 ? (genderCounts.Male / total) * 100 : 0`. -/
def malePercentage (records : List AnalysisRecord) (selectedBatch : String) : ℚ :=
  if 0 < chartTotal records selectedBatch then
    ((genderCounts (filteredRecords records selectedBatch)).1 : ℚ) /
      (chartTotal records selectedBatch) * 100
  else 0

/-- The expression `total > 0 ? (genderCounts.Female / total) * 100 : 0`. -/
def femalePercentage (records : List AnalysisRecord) (selectedBatch : String) : ℚ :=
  if 0 < chartTotal records selectedBatch then
    ((genderCounts (filteredRecords records selectedBatch)).2 : ℚ) /
      (chartTotal records selectedBatch) * 100
  else 0

/-- The regex replace of `formatCsvCell`: every `"` character becomes `""`
(a global single-character replacement, so a character-by-character pass is
an exact model). -/
def escapeQuotes (value : String) : String :=
  ⟨value.data.foldr (fun c acc => if c = '"' then '"' :: '"' :: acc else c :: acc) []⟩

/-- Function `formatCsvCell` of `App.downloadCSV`: wrap in double quotes, doubling
every embedded double quote. -/
def formatCsvCell (value : String) : String :=
  "\"" ++ escapeQuotes value ++ "\""

/-- The header cells of the exported CSV, in source order. -/
def csvHeaders : List String :=
  ["Timestamp", "Batch Number", "Analysis Type", "Predicted Gender",
   "Confidence", "AI Reasoning"]

/-- One data row of the exported CSV: the six quoted fields joined by
commas, in the source's column order. -/
def csvRow (r : AnalysisRecord) : String :=
  String.intercalate ","
    [formatCsvCell r.timestamp, formatCsvCell r.batchNumber,
     formatCsvCell r.analysisType, formatCsvCell r.gender,
     formatCsvCell r.confidence, formatCsvCell r.reasoning]

/-- The string `csvContent` of `App.downloadCSV`: the joined header row followed by
one data row per record, joined with newlines. -/
def csvContent (records : List AnalysisRecord) : String :=
  String.intercalate "\n" (String.intercalate "," csvHeaders :: records.map csvRow)

/-- Outcome of `ai.models.generateContent` as seen from the service code:
either it resolves and `response.text` is the given string, or the awaited
call (or anything else inside the `try`) throws. -/
inductive ServiceCall where
  | ok (text : String)
  | failed
deriving DecidableEq

/-- The fallback returned by `predictEggGender` when no API key is set. -/
def missingKeyResult : GenderPredictionResult :=
  { predictedGender := Gender.Uncertain
    confidence := Confidence.Low
    reasoning := "API Key is missing. Please configure VITE_GEMINI_API_KEY in your environment variables." }

/-- The catch-block fallback of `predictEggGender`. -/
def imageErrorResult : GenderPredictionResult :=
  { predictedGender := Gender.Uncertain
    confidence := Confidence.Low
    reasoning := "An error occurred during analysis. Please try again with a clearer image." }

/-- The catch-block fallback of `predictEggGenderFromMeasurements`. -/
def measurementErrorResult : GenderPredictionResult :=
  { predictedGender := Gender.Uncertain
    confidence := Confidence.Low
    reasoning := "An error occurred during analysis. Please try again." }

/-- Function `predictEggGender` of `services/geminiService`: return the
missing-key fallback when `apiKey` is absent; otherwise await the service
call, parse `response.text.trim()` as JSON, and return the catch-block
fallback when the call throws or parsing throws (`parseJson` returning
`none` models a `JSON.parse` exception). -/
def predictEggGender (apiKey : Option String) (call : ServiceCall)
    (parseJson : String → Option GenderPredictionResult)
    (imageData : String) : GenderPredictionResult :=
  match apiKey with
  | none => missingKeyResult
  | some _ =>
      match call with
      | ServiceCall.failed => imageErrorResult
      | ServiceCall.ok text =>
          match parseJson (jsTrim text) with
          | none => imageErrorResult
          | some result => result

/-- Function `predictEggGenderFromMeasurements` of `services/geminiService`: same
structure as `predictEggGender`, with the measurement-specific catch-block
fallback. -/
def predictEggGenderFromMeasurements (apiKey : Option String) (call : ServiceCall)
    (parseJson : String → Option GenderPredictionResult)
    (length width weight : ℚ) : GenderPredictionResult :=
  match apiKey with
  | none => missingKeyResult
  | some _ =>
      match call with
      | ServiceCall.failed => measurementErrorResult
      | ServiceCall.ok text =>
          match parseJson (jsTrim text) with
          | none => measurementErrorResult
          | some result => result

/-- Function `handleNewRecord` of `App`:
`setAnalysisRecords(prev => [...prev, record])`. -/
def handleNewRecord (prev : List AnalysisRecord) (record : AnalysisRecord) :
    List AnalysisRecord :=
  prev ++ [record]

/-- A batch's effect on the session store: every record emitted by the
batch is handed to `handleNewRecord` in order. -/
def applyAppends (store : List AnalysisRecord) (records : List AnalysisRecord) :
    List AnalysisRecord :=
  records.foldl handleNewRecord store

/-! Concrete fixtures used by the witness theorems. -/

/-- A fully parsed measurement field. -/
def numField (q : ℚ) : FieldInput := { isEmpty := false, parsed := some q }

/-- A valid demo row: length 55, width 42, weight 60. -/
def demoRow : MeasurementRow :=
  { id := "r1", length := numField 55, width := numField 42, weight := numField 60 }

/-- A second valid demo row: length 50, width 40, weight 58. -/
def demoRow2 : MeasurementRow :=
  { id := "r2", length := numField 50, width := numField 40, weight := numField 58 }

/-- An invalid demo row (width above length). -/
def badRow : MeasurementRow :=
  { id := "r3", length := numField 42, width := numField 55, weight := numField 60 }

/-- A demo client that fulfils every measurement call with a Male/High
prediction. -/
def demoClient : ℚ → ℚ → ℚ → SettledResult GenderPredictionResult :=
  fun _ _ _ =>
    SettledResult.fulfilled
      { predictedGender := Gender.Male, confidence := Confidence.High,
        reasoning := "demo" }

/-- A demo client that fulfils with Uncertain/Low. -/
def uncertainClient : ℚ → ℚ → ℚ → SettledResult GenderPredictionResult :=
  fun _ _ _ =>
    SettledResult.fulfilled
      { predictedGender := Gender.Uncertain, confidence := Confidence.Low,
        reasoning := "unclear" }

/-- A demo client that rejects exactly the calls with length 50. -/
def flakyClient : ℚ → ℚ → ℚ → SettledResult GenderPredictionResult :=
  fun lengthNum _ _ =>
    if lengthNum == 50 then SettledResult.rejected
    else
      SettledResult.fulfilled
        { predictedGender := Gender.Female, confidence := Confidence.Medium,
          reasoning := "demo" }

/-- A demo image file. -/
def demoFile : FilePreview := { id := "f1", preview := "blob:f1" }

/-- A demo reader that fulfils every read. -/
def demoReader : FilePreview → SettledResult String :=
  fun f => SettledResult.fulfilled ("data:" ++ f.id)

/-- A demo image client that fulfils with Uncertain/Low. -/
def uncertainImageClient : String → SettledResult GenderPredictionResult :=
  fun _ =>
    SettledResult.fulfilled
      { predictedGender := Gender.Uncertain, confidence := Confidence.Low,
        reasoning := "blurry" }

/-- A second demo image file. -/
def demoFile2 : FilePreview := { id := "f2", preview := "blob:f2" }

/-- A demo reader whose read of `demoFile2` fails (its `FileReader`
rejects), so no prediction call is issued for that file. -/
def flakyReader : FilePreview → SettledResult String :=
  fun f => if f.id == "f2" then SettledResult.rejected
           else SettledResult.fulfilled ("data:" ++ f.id)

/-- Demo analysis records: two Male, one Female, one Uncertain. -/
def demoRecords : List AnalysisRecord :=
  [ { timestamp := "t1", batchNumber := "B1", analysisType := "Image",
      gender := "Male", confidence := "High", reasoning := "a" },
    { timestamp := "t2", batchNumber := "B1", analysisType := "Image",
      gender := "Male", confidence := "Medium", reasoning := "b" },
    { timestamp := "t3", batchNumber := "B1", analysisType := "Calculator",
      gender := "Female", confidence := "High", reasoning := "c" },
    { timestamp := "t4", batchNumber := "B1", analysisType := "Image",
      gender := "Uncertain", confidence := "Low", reasoning := "d" } ]

/-- A valid calculation result produced by `demoClient` on `demoRow`. -/
def demoCalcResult : CalculationResult :=
  { predictedGender := Gender.Male, confidence := Confidence.High,
    reasoning := "demo", id := "r1",
    inputs := { length := 55, width := 42, weight := 60 },
    shapeIndex := shapeIndexOf 55 42 }

/-- A valid calculation result produced by `demoClient` on `demoRow2`. -/
def demoCalcResult2 : CalculationResult :=
  { predictedGender := Gender.Male, confidence := Confidence.High,
    reasoning := "demo", id := "r2",
    inputs := { length := 50, width := 40, weight := 58 },
    shapeIndex := shapeIndexOf 50 40 }

/-! Helper lemmas about the collection loops. -/

@[simp]
theorem toOption_fulfilled {α : Type} (v : α) :
    (SettledResult.fulfilled v).toOption = some v := rfl

@[simp]
theorem toOption_rejected {α : Type} :
    (SettledResult.rejected : SettledResult α).toOption = none := rfl

@[simp]
theorem isFulfilled_fulfilled {α : Type} (v : α) :
    (SettledResult.fulfilled v).isFulfilled = true := rfl

@[simp]
theorem isFulfilled_rejected {α : Type} :
    (SettledResult.rejected : SettledResult α).isFulfilled = false := rfl

/-- The calculator collection loop, characterised: displayed results are
exactly the fulfilled values; the appended records are the fulfilled
non-Uncertain values, in order; the failure-log count is the number of
rejections. -/
theorem collectCalc_eq (now batchNumber : String)
    (settled : List (SettledResult CalculationResult)) :
    collectCalc now batchNumber settled =
      (settled.filterMap SettledResult.toOption,
       ((settled.filterMap SettledResult.toOption).filter
          (fun r => !(r.predictedGender == Gender.Uncertain))).map
            (mkCalcRecord now batchNumber),
       settled.countP (fun s => !s.isFulfilled)) := by
  induction settled with
  | nil => rfl
  | cons head rest ih =>
      cases head with
      | fulfilled result =>
          by_cases h : result.predictedGender = Gender.Uncertain <;>
            simp [collectCalc, ih, h, List.filter_cons, List.countP_cons]
      | rejected =>
          simp [collectCalc, ih, List.countP_cons]

/-- The image collection loop, characterised: displayed results are the
fulfilled values; every fulfilled value is appended; the failure-log count
is the number of rejections. -/
theorem collectImage_eq (now batchNumber : String)
    (settled : List (SettledResult ImageResult)) :
    collectImage now batchNumber settled =
      (settled.filterMap SettledResult.toOption,
       (settled.filterMap SettledResult.toOption).map (mkImageRecord now batchNumber),
       settled.countP (fun s => !s.isFulfilled)) := by
  induction settled with
  | nil => rfl
  | cons head rest ih =>
      cases head with
      | fulfilled result =>
          simp [collectImage, ih, List.countP_cons]
      | rejected =>
          simp [collectImage, ih, List.countP_cons]

/-- The displayed list has one entry per fulfilled outcome. -/
theorem length_filterMap_fulfilled {α : Type} (l : List (SettledResult α)) :
    (l.filterMap SettledResult.toOption).length = l.countP SettledResult.isFulfilled := by
  induction l with
  | nil => rfl
  | cons head rest ih =>
      cases head <;> simp [List.countP_cons, ih]

/-- Fulfilled and rejected outcomes partition the settled list. -/
theorem countP_fulfilled_add_rejected {α : Type} (l : List (SettledResult α)) :
    l.countP SettledResult.isFulfilled + l.countP (fun s => !s.isFulfilled) = l.length := by
  induction l with
  | nil => rfl
  | cons head rest ih =>
      cases head <;> simp [List.countP_cons, ih] <;> omega

/-- The number of fulfilled outcomes is the total minus the number of
rejections. -/
theorem length_filterMap_toOption {α : Type} (l : List (SettledResult α)) :
    (l.filterMap SettledResult.toOption).length =
      l.length - l.countP (fun s => !s.isFulfilled) := by
  have h1 := length_filterMap_fulfilled l
  have h2 := countP_fulfilled_add_rejected l
  omega

/-- The `reduce` of `AnalysisChart`, characterised with an arbitrary
starting accumulator: it adds the number of exact-`"Male"` records to the
first component and the number of exact-`"Female"` records to the second. -/
theorem genderCounts_foldl (records : List AnalysisRecord) (a b : ℕ) :
    records.foldl genderTally (a, b) =
      (a + records.countP (fun r => r.gender == "Male"),
       b + records.countP (fun r => r.gender == "Female")) := by
  induction records generalizing a b with
  | nil => simp
  | cons record rest ih =>
      rw [List.foldl_cons, List.countP_cons, List.countP_cons]
      by_cases h1 : record.gender = "Male"
      · have hb1 : (record.gender == "Male") = true := by simp [h1]
        have hb2 : (record.gender == "Female") = false := by simp [h1]
        rw [show genderTally (a, b) record = (a + 1, b) by simp [genderTally, hb1], ih]
        rw [hb1, hb2]
        simp [Prod.ext_iff]
        omega
      · by_cases h2 : record.gender = "Female"
        · have hb1 : (record.gender == "Male") = false := by simp [h1]
          have hb2 : (record.gender == "Female") = true := by simp [h2]
          rw [show genderTally (a, b) record = (a, b + 1) by simp [genderTally, hb1, hb2], ih]
          rw [hb1, hb2]
          simp [Prod.ext_iff]
          omega
        · have hb1 : (record.gender == "Male") = false := by simp [h1]
          have hb2 : (record.gender == "Female") = false := by simp [h2]
          rw [show genderTally (a, b) record = (a, b) by simp [genderTally, hb1, hb2], ih]
          rw [hb1, hb2]
          simp

/-- Function `genderCounts` counts exactly the `"Male"` and `"Female"` records. -/
theorem genderCounts_eq (records : List AnalysisRecord) :
    genderCounts records =
      (records.countP (fun r => r.gender == "Male"),
       records.countP (fun r => r.gender == "Female")) := by
  simpa using genderCounts_foldl records 0 0

/-- Folding `handleNewRecord` over a list of emitted records appends them
all, in order. -/
theorem applyAppends_eq (store records : List AnalysisRecord) :
    applyAppends store records = store ++ records := by
  induction records generalizing store with
  | nil => simp [applyAppends]
  | cons record rest ih =>
      calc applyAppends store (record :: rest)
          = applyAppends (store ++ [record]) rest := rfl
        _ = (store ++ [record]) ++ rest := ih (store ++ [record])
        _ = store ++ (record :: rest) := by simp

/-- C4: for all measurement values with 0 < shortAxis < longAxis, the
derived shape index equals (shortAxis / longAxis) * 100 exactly, with no
rounding or clamping inside the derivation; moreover every result a
calculator batch displays carries exactly that value for its own parsed
inputs. -/
theorem shape_index_formula :
    (∀ lengthNum widthNum : ℚ, 0 < widthNum → widthNum < lengthNum →
        shapeIndexOf lengthNum widthNum = widthNum / lengthNum * 100) ∧
    (∀ (client : ℚ → ℚ → ℚ → SettledResult GenderPredictionResult)
        (now batchNumber : String) (rows : List MeasurementRow)
        (r : CalculationResult),
        r ∈ (handleCalculate client now batchNumber rows).results →
          r.shapeIndex = r.inputs.width / r.inputs.length * 100) := by
  constructor
  · intro lengthNum widthNum _ _
    rfl
  · intro client now batchNumber rows r hr
    by_cases hv : validateRows batchNumber rows = true
    · simp only [handleCalculate, hv, if_true, collectCalc_eq] at hr
      rw [List.mem_filterMap] at hr
      obtain ⟨s, hs, hsome⟩ := hr
      rw [List.mem_map] at hs
      obtain ⟨row, _, rfl⟩ := hs
      cases hcl : client row.length.value row.width.value row.weight.value with
      | fulfilled analysisResult =>
          simp only [calcPromise, hcl, toOption_fulfilled, Option.some.injEq] at hsome
          subst hsome
          rfl
      | rejected =>
          simp [calcPromise, hcl] at hsome
    · simp [handleCalculate, hv] at hr

/-- Witness for C4 at the concrete measurements 55/42 and the demo run. -/
theorem shape_index_formula_witness :
    ((0:ℚ) < 42 ∧ (42:ℚ) < 55 ∧ shapeIndexOf 55 42 = 42 / 55 * 100) ∧
    (demoCalcResult ∈ (handleCalculate demoClient "t0" "B1" [demoRow]).results ∧
      demoCalcResult.shapeIndex = demoCalcResult.inputs.width / demoCalcResult.inputs.length * 100) := by
  have hmem : demoCalcResult ∈ (handleCalculate demoClient "t0" "B1" [demoRow]).results := by
    rw [show (handleCalculate demoClient "t0" "B1" [demoRow]).results = [demoCalcResult] from rfl]
    exact List.mem_singleton.mpr rfl
  exact ⟨⟨by norm_num, by norm_num,
      shape_index_formula.1 55 42 (by norm_num) (by norm_num)⟩,
    hmem, shape_index_formula.2 demoClient "t0" "B1" [demoRow] demoCalcResult hmem⟩

/-- C5: for every record list and batch filter, the aggregation counts
exactly the filtered records whose gender is the exact string 'Male' or
'Female'; anything else is excluded from both counts and the total, and
when the total is positive the percentages are count / total * 100. -/
theorem chart_gender_aggregation (records : List AnalysisRecord) (selectedBatch : String) :
    (genderCounts (filteredRecords records selectedBatch)).1
        = (filteredRecords records selectedBatch).countP (fun r => r.gender == "Male") ∧
    (genderCounts (filteredRecords records selectedBatch)).2
        = (filteredRecords records selectedBatch).countP (fun r => r.gender == "Female") ∧
    chartTotal records selectedBatch
        = (filteredRecords records selectedBatch).countP (fun r => r.gender == "Male")
          + (filteredRecords records selectedBatch).countP (fun r => r.gender == "Female") ∧
    (0 < chartTotal records selectedBatch →
      malePercentage records selectedBatch
          = ((genderCounts (filteredRecords records selectedBatch)).1 : ℚ)
              / (chartTotal records selectedBatch : ℚ) * 100 ∧
      femalePercentage records selectedBatch
          = ((genderCounts (filteredRecords records selectedBatch)).2 : ℚ)
              / (chartTotal records selectedBatch : ℚ) * 100) := by
  refine ⟨?_, ?_, ?_, fun h => ⟨?_, ?_⟩⟩
  · simp [genderCounts_eq]
  · simp [genderCounts_eq]
  · simp [chartTotal, genderCounts_eq]
  · unfold malePercentage
    rw [if_pos h]
  · unfold femalePercentage
    rw [if_pos h]

/-- Witness for C5 on records [Male, Male, Female, Uncertain]: counts 2/1,
total 3, percentages 200/3 and 100/3 (the Uncertain record is ignored). -/
theorem chart_gender_aggregation_witness :
    genderCounts (filteredRecords demoRecords "all") = (2, 1) ∧
    chartTotal demoRecords "all" = 3 ∧
    malePercentage demoRecords "all" = 200 / 3 ∧
    femalePercentage demoRecords "all" = 100 / 3 := by
  have h := (chart_gender_aggregation demoRecords "all").2.2.2 (by decide)
  have hc : genderCounts (filteredRecords demoRecords "all") = (2, 1) := by decide
  have ht : chartTotal demoRecords "all" = 3 := by decide
  refine ⟨hc, ht, ?_, ?_⟩
  · rw [h.1, hc, ht]
    norm_num
  · rw [h.2, hc, ht]
    norm_num

/-- C6: whenever the filtered Male-plus-Female total is zero (including on
the empty list), both percentages are reported as 0 with no division. -/
theorem chart_zero_total_percentages (records : List AnalysisRecord)
    (selectedBatch : String) (h : chartTotal records selectedBatch = 0) :
    malePercentage records selectedBatch = 0 ∧
    femalePercentage records selectedBatch = 0 := by
  constructor <;> simp [malePercentage, femalePercentage, h]

/-- Witness for C6 on the empty record list. -/
theorem chart_zero_total_percentages_witness :
    chartTotal [] "all" = 0 ∧
    malePercentage [] "all" = 0 ∧ femalePercentage [] "all" = 0 := by
  have h := chart_zero_total_percentages [] "all" rfl
  exact ⟨rfl, h.1, h.2⟩

/-- C9: when the API key is missing, the service call throws, or the JSON
response fails to parse, both prediction functions still resolve, with a
result whose gender is Uncertain and whose confidence is Low. -/
theorem prediction_service_error_fallback
    (apiKey : Option String) (call : ServiceCall)
    (parseJson : String → Option GenderPredictionResult)
    (imageData : String) (length width weight : ℚ)
    (h : apiKey = none ∨ call = ServiceCall.failed ∨
         ∃ text, call = ServiceCall.ok text ∧ parseJson (jsTrim text) = none) :
    ((predictEggGender apiKey call parseJson imageData).predictedGender = Gender.Uncertain ∧
     (predictEggGender apiKey call parseJson imageData).confidence = Confidence.Low) ∧
    ((predictEggGenderFromMeasurements apiKey call parseJson
        length width weight).predictedGender = Gender.Uncertain ∧
     (predictEggGenderFromMeasurements apiKey call parseJson
        length width weight).confidence = Confidence.Low) := by
  rcases h with h | h | ⟨text, hc, hp⟩
  · subst h
    exact ⟨⟨rfl, rfl⟩, rfl, rfl⟩
  · subst h
    cases apiKey <;> exact ⟨⟨rfl, rfl⟩, rfl, rfl⟩
  · subst hc
    cases apiKey with
    | none => exact ⟨⟨rfl, rfl⟩, rfl, rfl⟩
    | some key =>
        simp [predictEggGender, predictEggGenderFromMeasurements, hp,
          imageErrorResult, measurementErrorResult]

/-- Witness for C9 with a missing API key. -/
theorem prediction_service_error_fallback_witness :
    ((predictEggGender none ServiceCall.failed (fun _ => none) "img").predictedGender
        = Gender.Uncertain ∧
     (predictEggGender none ServiceCall.failed (fun _ => none) "img").confidence
        = Confidence.Low) ∧
    ((predictEggGenderFromMeasurements none ServiceCall.failed (fun _ => none)
        55 42 60).predictedGender = Gender.Uncertain ∧
     (predictEggGenderFromMeasurements none ServiceCall.failed (fun _ => none)
        55 42 60).confidence = Confidence.Low) :=
  prediction_service_error_fallback none ServiceCall.failed (fun _ => none)
    "img" 55 42 60 (Or.inl rfl)

/-- C10: `handleNewRecord` appends exactly one record at the end, leaving
every previously stored record unchanged and in order, and a whole batch's
emissions only ever extend the store. -/
theorem record_store_append_only (store : List AnalysisRecord)
    (record : AnalysisRecord) (batchRecords : List AnalysisRecord) :
    handleNewRecord store record = store ++ [record] ∧
    (handleNewRecord store record).length = store.length + 1 ∧
    (handleNewRecord store record).take store.length = store ∧
    store <+: handleNewRecord store record ∧
    applyAppends store batchRecords = store ++ batchRecords ∧
    store <+: applyAppends store batchRecords := by
  refine ⟨rfl, by simp [handleNewRecord], ?_, ⟨[record], rfl⟩,
    applyAppends_eq store batchRecords, ?_⟩
  · simp [handleNewRecord]
  · rw [applyAppends_eq]
    exact ⟨batchRecords, rfl⟩

/-- C1: in a measurement-variant batch every fulfilled prediction is
displayed but only the non-Uncertain ones are appended to the store (so no
appended calculator record has gender 'Uncertain'), while in an
image-variant batch every fulfilled prediction — Uncertain included — gets
an appended record. -/
theorem calc_image_uncertain_asymmetry
    (client : ℚ → ℚ → ℚ → SettledResult GenderPredictionResult)
    (now batchNumber : String) (rows : List MeasurementRow)
    (reader : FilePreview → SettledResult String)
    (imgClient : String → SettledResult GenderPredictionResult)
    (imgNow imgBatch : String) (files : List FilePreview)
    (hv : validateRows batchNumber rows = true)
    (hb : (files.length == 0 || jsTrim imgBatch == "") = false) :
    ((handleCalculate client now batchNumber rows).results
        = (rows.map (calcPromise client)).filterMap SettledResult.toOption ∧
     (handleCalculate client now batchNumber rows).appended
        = (((rows.map (calcPromise client)).filterMap SettledResult.toOption).filter
             (fun r => !(r.predictedGender == Gender.Uncertain))).map
               (mkCalcRecord now batchNumber) ∧
     (∀ rec ∈ (handleCalculate client now batchNumber rows).appended,
        rec.gender ≠ "Uncertain")) ∧
    ((handleAnalyze reader imgClient imgNow imgBatch files).results
        = (files.map (imagePromise reader imgClient)).filterMap SettledResult.toOption ∧
     (handleAnalyze reader imgClient imgNow imgBatch files).appended
        = (handleAnalyze reader imgClient imgNow imgBatch files).results.map
            (mkImageRecord imgNow imgBatch)) := by
  have hres : (handleCalculate client now batchNumber rows).results
      = (rows.map (calcPromise client)).filterMap SettledResult.toOption := by
    simp [handleCalculate, hv, collectCalc_eq]
  have happ : (handleCalculate client now batchNumber rows).appended
      = (((rows.map (calcPromise client)).filterMap SettledResult.toOption).filter
           (fun r => !(r.predictedGender == Gender.Uncertain))).map
             (mkCalcRecord now batchNumber) := by
    simp [handleCalculate, hv, collectCalc_eq]
  refine ⟨⟨hres, happ, ?_⟩, ?_, ?_⟩
  · intro rec hrec
    rw [happ] at hrec
    rw [List.mem_map] at hrec
    obtain ⟨r, hr, rfl⟩ := hrec
    rw [List.mem_filter] at hr
    have hne : r.predictedGender ≠ Gender.Uncertain := by
      intro hcontra
      simp [hcontra] at hr
    cases hg : r.predictedGender with
    | Male => simp [mkCalcRecord, Gender.label, hg]
    | Female => simp [mkCalcRecord, Gender.label, hg]
    | Uncertain => exact absurd hg hne
  · simp [handleAnalyze, hb, collectImage_eq]
  · simp [handleAnalyze, hb, collectImage_eq]

/-- Witness for C1: an Uncertain calculator prediction is displayed but
not stored, while an Uncertain image prediction is stored. -/
theorem calc_image_uncertain_asymmetry_witness :
    validateRows "B1" [demoRow] = true ∧
    (handleCalculate uncertainClient "t0" "B1" [demoRow]).results.length = 1 ∧
    (handleCalculate uncertainClient "t0" "B1" [demoRow]).appended = [] ∧
    (handleAnalyze demoReader uncertainImageClient "t0" "B1" [demoFile]).appended
      = [mkImageRecord "t0" "B1"
           { predictedGender := Gender.Uncertain, confidence := Confidence.Low,
             reasoning := "blurry", id := "f1", preview := "blob:f1" }] := by
  have h := calc_image_uncertain_asymmetry uncertainClient "t0" "B1" [demoRow]
    demoReader uncertainImageClient "t0" "B1" [demoFile] (by decide) (by decide)
  refine ⟨by decide, ?_, ?_, ?_⟩
  · rw [h.1.1]
    rfl
  · rw [h.1.2.1]
    rfl
  · rw [h.2.2]
    rfl

/-- C2: for a validated batch of N inputs of which k settle as failures,
the run issues one client call per input, displays exactly N − k results,
logs exactly k failures, and appends exactly the non-excluded successes
(all fulfilled results for the image variant). -/
theorem batch_success_failure_counts
    (client : ℚ → ℚ → ℚ → SettledResult GenderPredictionResult)
    (now batchNumber : String) (rows : List MeasurementRow)
    (reader : FilePreview → SettledResult String)
    (imgClient : String → SettledResult GenderPredictionResult)
    (imgNow imgBatch : String) (files : List FilePreview)
    (hv : validateRows batchNumber rows = true)
    (hb : (files.length == 0 || jsTrim imgBatch == "") = false) :
    (handleCalculate client now batchNumber rows).callCount = rows.length ∧
    (handleCalculate client now batchNumber rows).results.length
        = rows.length - (rows.map (calcPromise client)).countP (fun s => !s.isFulfilled) ∧
    (handleCalculate client now batchNumber rows).failedLogs
        = (rows.map (calcPromise client)).countP (fun s => !s.isFulfilled) ∧
    (handleCalculate client now batchNumber rows).appended.length
        = ((rows.map (calcPromise client)).filterMap SettledResult.toOption).countP
            (fun r => !(r.predictedGender == Gender.Uncertain)) ∧
    (handleAnalyze reader imgClient imgNow imgBatch files).results.length
        = files.length - (files.map (imagePromise reader imgClient)).countP
            (fun s => !s.isFulfilled) ∧
    (handleAnalyze reader imgClient imgNow imgBatch files).failedLogs
        = (files.map (imagePromise reader imgClient)).countP (fun s => !s.isFulfilled) ∧
    (handleAnalyze reader imgClient imgNow imgBatch files).appended.length
        = (handleAnalyze reader imgClient imgNow imgBatch files).results.length := by
  have hres : (handleCalculate client now batchNumber rows).results
      = (rows.map (calcPromise client)).filterMap SettledResult.toOption := by
    simp [handleCalculate, hv, collectCalc_eq]
  have hires : (handleAnalyze reader imgClient imgNow imgBatch files).results
      = (files.map (imagePromise reader imgClient)).filterMap SettledResult.toOption := by
    simp [handleAnalyze, hb, collectImage_eq]
  refine ⟨?_, ?_, ?_, ?_, ?_, ?_, ?_⟩
  · simp [handleCalculate, hv]
  · rw [hres, length_filterMap_toOption, List.length_map]
  · simp [handleCalculate, hv, collectCalc_eq]
  · simp [handleCalculate, hv, collectCalc_eq, List.countP_eq_length_filter]
  · rw [hires, length_filterMap_toOption, List.length_map]
  · simp [handleAnalyze, hb, collectImage_eq]
  · simp [handleAnalyze, hb, collectImage_eq]

/-- Witness for C2: two calculator rows with one simulated failure give one
displayed result, one failure log and one stored record; two image files
with one failing read behave the same. -/
theorem batch_success_failure_counts_witness :
    (handleCalculate flakyClient "t0" "B1" [demoRow, demoRow2]).callCount = 2 ∧
    (handleCalculate flakyClient "t0" "B1" [demoRow, demoRow2]).results.length = 1 ∧
    (handleCalculate flakyClient "t0" "B1" [demoRow, demoRow2]).failedLogs = 1 ∧
    (handleCalculate flakyClient "t0" "B1" [demoRow, demoRow2]).appended.length = 1 ∧
    (handleAnalyze flakyReader uncertainImageClient "t0" "B1" [demoFile, demoFile2]).results.length = 1 ∧
    (handleAnalyze flakyReader uncertainImageClient "t0" "B1" [demoFile, demoFile2]).failedLogs = 1 ∧
    (handleAnalyze flakyReader uncertainImageClient "t0" "B1" [demoFile, demoFile2]).appended.length = 1 := by
  have h := batch_success_failure_counts flakyClient "t0" "B1" [demoRow, demoRow2]
    flakyReader uncertainImageClient "t0" "B1" [demoFile, demoFile2]
    (by decide) (by decide)
  refine ⟨h.1, ?_, ?_, ?_, ?_, ?_, ?_⟩
  · rw [h.2.1]
    rfl
  · rw [h.2.2.1]
    rfl
  · rw [h.2.2.2.1]
    rfl
  · rw [h.2.2.2.2.1]
    rfl
  · rw [h.2.2.2.2.2.1]
    rfl
  · rw [h.2.2.2.2.2.2]
    rfl

/-- C3: an empty trimmed batch number or any invalid measurement row (even
alongside valid rows) rejects the whole submission: nothing is displayed,
nothing is appended, and zero prediction-client calls are issued; likewise
the image variant issues zero calls on an empty trimmed batch number. -/
theorem validation_blocks_dispatch
    (client : ℚ → ℚ → ℚ → SettledResult GenderPredictionResult)
    (now batchNumber : String) (rows : List MeasurementRow)
    (reader : FilePreview → SettledResult String)
    (imgClient : String → SettledResult GenderPredictionResult)
    (imgNow imgBatch : String) (files : List FilePreview)
    (hcalc : jsTrim batchNumber = "" ∨ ∃ row ∈ rows, validRow row = false)
    (himg : jsTrim imgBatch = "") :
    handleCalculate client now batchNumber rows
        = { results := [], appended := [], failedLogs := 0, callCount := 0 } ∧
    handleAnalyze reader imgClient imgNow imgBatch files
        = { results := [], appended := [], failedLogs := 0, callCount := 0 } := by
  constructor
  · have hfalse : validateRows batchNumber rows = false := by
      rcases hcalc with h | ⟨row, hmem, hbad⟩
      · simp [validateRows, h]
      · have : rows.all validRow = false := by
          rw [List.all_eq_false]
          exact ⟨row, hmem, by simp [hbad]⟩
        simp [validateRows, this]
    simp [handleCalculate, hfalse]
  · simp [handleAnalyze, himg]

/-- Witness for C3: one invalid row (short axis 55 above long axis 42)
blocks a batch that also contains a valid row, and a whitespace-only batch
number blocks an image batch. -/
theorem validation_blocks_dispatch_witness :
    handleCalculate demoClient "t0" "B1" [demoRow, badRow]
        = { results := [], appended := [], failedLogs := 0, callCount := 0 } ∧
    handleAnalyze demoReader uncertainImageClient "t0" "  " [demoFile]
        = { results := [], appended := [], failedLogs := 0, callCount := 0 } :=
  validation_blocks_dispatch demoClient "t0" "B1" [demoRow, badRow]
    demoReader uncertainImageClient "t0" "  " [demoFile]
    (Or.inr ⟨badRow, by decide, by decide⟩) (by decide)

/-- C7: the exported CSV is the header line — columns exactly Timestamp,
Batch Number, Analysis Type, Predicted Gender, Confidence, AI Reasoning —
followed by one line per record in store order, every field wrapped in
double quotes with internal double quotes doubled. -/
theorem csv_export_format (records : List AnalysisRecord) :
    csvContent records =
      String.intercalate "\n"
        ("Timestamp,Batch Number,Analysis Type,Predicted Gender,Confidence,AI Reasoning"
          :: records.map csvRow) ∧
    (∀ r : AnalysisRecord,
      csvRow r = formatCsvCell r.timestamp ++ "," ++ formatCsvCell r.batchNumber ++ ","
        ++ formatCsvCell r.analysisType ++ "," ++ formatCsvCell r.gender ++ ","
        ++ formatCsvCell r.confidence ++ "," ++ formatCsvCell r.reasoning) ∧
    (∀ value : String, formatCsvCell value = "\"" ++ escapeQuotes value ++ "\"") ∧
    escapeQuotes "He said \"ok\"" = "He said \"\"ok\"\"" ∧
    (∀ r1 r2 : AnalysisRecord,
      csvContent [r1, r2]
        = "Timestamp,Batch Number,Analysis Type,Predicted Gender,Confidence,AI Reasoning"
            ++ "\n" ++ csvRow r1 ++ "\n" ++ csvRow r2) :=
  ⟨rfl, fun _ => rfl, fun _ => rfl, by decide, fun _ _ => rfl⟩

/-- C8: every record appended by a calculator batch stores as reasoning
the string 'Shape Index: ', the displayed result's shape index formatted
to two decimals, '. ', then the client's reasoning unchanged. -/
theorem calc_record_reasoning_format
    (client : ℚ → ℚ → ℚ → SettledResult GenderPredictionResult)
    (now batchNumber : String) (rows : List MeasurementRow)
    (rec : AnalysisRecord)
    (hrec : rec ∈ (handleCalculate client now batchNumber rows).appended) :
    ∃ r : CalculationResult,
      r ∈ (handleCalculate client now batchNumber rows).results ∧
      r.predictedGender ≠ Gender.Uncertain ∧
      rec.reasoning = "Shape Index: " ++ toFixed2 r.shapeIndex ++ ". " ++ r.reasoning := by
  by_cases hv : validateRows batchNumber rows = true
  · have happ : (handleCalculate client now batchNumber rows).appended
        = (((rows.map (calcPromise client)).filterMap SettledResult.toOption).filter
             (fun r => !(r.predictedGender == Gender.Uncertain))).map
               (mkCalcRecord now batchNumber) := by
      simp [handleCalculate, hv, collectCalc_eq]
    have hres : (handleCalculate client now batchNumber rows).results
        = (rows.map (calcPromise client)).filterMap SettledResult.toOption := by
      simp [handleCalculate, hv, collectCalc_eq]
    rw [happ, List.mem_map] at hrec
    obtain ⟨r, hr, rfl⟩ := hrec
    rw [List.mem_filter] at hr
    refine ⟨r, ?_, ?_, rfl⟩
    · rw [hres]
      exact hr.1
    · intro hcontra
      simp [hcontra] at hr
  · simp [handleCalculate, hv] at hrec

/-- Witness for C8: the one record stored for the 50/40/58 demo row has
reasoning 'Shape Index: 80.00. demo'. -/
theorem calc_record_reasoning_format_witness :
    mkCalcRecord "t0" "B1" demoCalcResult2
        ∈ (handleCalculate demoClient "t0" "B1" [demoRow2]).appended ∧
    (∃ r : CalculationResult,
      r ∈ (handleCalculate demoClient "t0" "B1" [demoRow2]).results ∧
      r.predictedGender ≠ Gender.Uncertain ∧
      (mkCalcRecord "t0" "B1" demoCalcResult2).reasoning
        = "Shape Index: " ++ toFixed2 r.shapeIndex ++ ". " ++ r.reasoning) ∧
    (mkCalcRecord "t0" "B1" demoCalcResult2).reasoning = "Shape Index: 80.00. demo" := by
  have hmem : mkCalcRecord "t0" "B1" demoCalcResult2
      ∈ (handleCalculate demoClient "t0" "B1" [demoRow2]).appended := by
    rw [show (handleCalculate demoClient "t0" "B1" [demoRow2]).appended
          = [mkCalcRecord "t0" "B1" demoCalcResult2] from rfl]
    exact List.mem_singleton.mpr rfl
  have hfix : toFixed2 (shapeIndexOf 50 40) = "80.00" := by
    have hneg : ¬ shapeIndexOf 50 40 < 0 := by norm_num [shapeIndexOf]
    have hfloor : (⌊|shapeIndexOf 50 40| * 100 + 1 / 2⌋ : ℤ) = 8000 := by
      norm_num [shapeIndexOf]
    unfold toFixed2
    rw [if_neg hneg, hfloor]
    rfl
  refine ⟨hmem,
    calc_record_reasoning_format demoClient "t0" "B1" [demoRow2] _ hmem, ?_⟩
  show "Shape Index: " ++ toFixed2 demoCalcResult2.shapeIndex ++ ". " ++ "demo"
      = "Shape Index: 80.00. demo"
  rw [show demoCalcResult2.shapeIndex = shapeIndexOf 50 40 from rfl, hfix]
  decide

end EggGender
